import Mathlib

/-!
Verification of the `jester` 2D sprite engine's graphics backend
(`src/b_vk/src/lib.rs`) and core renderer (`src/jester_core`).

The Vulkan backend is embedded shallowly: GPU handles (devices, buffers,
images, semaphores, fences, command buffers) are opaque driver objects with
no observable arithmetic content, so the state `VkState` carries exactly the
fields of `VkBackend` whose values the code computes and branches on
(`surface_resolution`, `swapchain_rebuild`, `frame_idx`, `current_img`,
`instance_cursor`, and the lengths of the five parallel texture arrays).
Results of driver calls (surface capabilities, acquire/present results,
resource-creation failures) are inputs to the embedded functions, mirroring
the fact that the code receives them from `ash` calls.  Unwraps/asserts in
the code are modelled as an explicit `panicked` outcome; driver calls whose
failure the code does not branch on (fence waits, command-buffer begin/end,
`map_memory` in `draw_sprites`) are modelled as succeeding, since the code
unconditionally unwraps them and no claim concerns them.
-/

/-- Constants from `jester_core/src/render.rs`, module `constants`. -/
def MAX_SPRITES : Nat := 10000

/-- Maximum number of textures, `jester_core/src/render.rs`. -/
def MAX_TEXTURES : Nat := 256

/-- `VkBackend::MAX_FRAMES_IN_FLIGHT` in `b_vk/src/lib.rs`. -/
def MAX_FRAMES_IN_FLIGHT : Nat := 2

/-- Byte size of `SpriteInstance` (`jester_core/src/sprite.rs`):
`pos_size: [f32;4]` + `uv: [f32;4]`, `repr(C)`, 32 bytes, no padding. -/
def spriteInstanceBytes : Nat := 32

/-- The `u32::MAX` sentinel the surface reports for an undefined current
extent (`caps.current_extent.width == u32::MAX`). -/
def u32Max : Nat := 4294967295

/-- Modulus of `u32` arithmetic: `width * height * 4` in
`VkBackend::create_texture` is computed in `u32` and wraps. -/
def u32Mod : Nat := 4294967296

/-- Error codes returned by driver calls (`ash::vk::Result` error values).
Only the distinctions the code branches on matter; it branches on none, so
one constructor per relevant scenario suffices. -/
inductive VkErr where
  | outOfDateKhr
  | deviceLost
  | other
deriving DecidableEq

/-- Result of a fallible driver call, mirroring Rust `Result<α, vk::Result>`. -/
inductive VkRes (α : Type) where
  | ok (val : α)
  | err (code : VkErr)
deriving DecidableEq

/-- Outcome of a backend method that can hit an `unwrap`/`assert` panic. -/
inductive Outcome (α : Type) where
  | ok (val : α)
  | panicked (msg : String)
deriving DecidableEq

/-- Surface capabilities as queried from
`get_physical_device_surface_capabilities`: the fields
`VkBackend::create_swapchain` and `VkBackend::init` read. -/
structure SurfaceCaps where
  minImageCount : Nat
  maxImageCount : Nat
  currentExtentW : Nat
  currentExtentH : Nat
deriving DecidableEq

/-- Observable state of `VkBackend` (`b_vk/src/lib.rs`): the
`surface_resolution` extent, the `swapchain_rebuild` flag, `frame_idx`,
`current_img`, `instance_cursor` (in bytes, as `vk::DeviceSize`), and the
lengths of the five parallel texture arrays (`images`, `image_mem`,
`image_views`, `samplers`, `descriptor_sets`). -/
structure VkState where
  surfaceW : Nat
  surfaceH : Nat
  swapchainRebuild : Bool
  frameIdx : Nat
  currentImg : Nat
  instanceCursor : Nat
  images : Nat
  imageMem : Nat
  imageViews : Nat
  samplers : Nat
  descriptorSets : Nat
deriving DecidableEq

/-- Desired swapchain image count as computed by
`VkBackend::create_swapchain` (lib.rs lines 137-138):
`(caps.min_image_count + 1).min(caps.max_image_count.max(caps.min_image_count + 1))`. -/
def VkBackend.desired_image_count_rebuild (caps : SurfaceCaps) : Nat :=
  Nat.min (caps.minImageCount + 1)
    (Nat.max caps.maxImageCount (caps.minImageCount + 1))

/-- Desired swapchain image count as computed by `VkBackend::init`
(lib.rs lines 828-833): start from `min_image_count + 1`, and clamp down to
`max_image_count` when that is non-zero and exceeded. -/
def VkBackend.desired_image_count_init (caps : SurfaceCaps) : Nat :=
  let d := caps.minImageCount + 1
  if caps.maxImageCount > 0 ∧ d > caps.maxImageCount then caps.maxImageCount else d

/-- The new `surface_resolution` chosen by `VkBackend::create_swapchain`
(lib.rs lines 140-146): the caller-supplied window size when the surface
reports the `u32::MAX` undefined-extent sentinel on `current_extent.width`,
otherwise the reported extent verbatim. -/
def VkBackend.new_surface_resolution (caps : SurfaceCaps) (windowW windowH : Nat) :
    Nat × Nat :=
  if caps.currentExtentW = u32Max then (windowW, windowH)
  else (caps.currentExtentW, caps.currentExtentH)

/-- `VkBackend::create_swapchain(window_width, window_height)`.  The surface
capabilities are an input (the code queries them from the driver); `fail`
abstracts the `?`-propagated failure of any driver sub-call (capability
query, swapchain/view/semaphore/framebuffer creation).  On success the
method overwrites `surface_resolution` and replaces the swapchain
images/views/framebuffers/present-semaphores (opaque handles, not tracked
here).  The desired image count it requests is
`VkBackend.desired_image_count_rebuild`. -/
def VkBackend.create_swapchain (caps : SurfaceCaps) (fail : Option VkErr)
    (windowW windowH : Nat) (s : VkState) : VkRes VkState :=
  match fail with
  | some e => .err e
  | none =>
    let res := VkBackend.new_surface_resolution caps windowW windowH
    .ok { s with surfaceW := res.1, surfaceH := res.2 }

/-- `Backend::handle_resize(size)` for `VkBackend` (lib.rs lines 235-242):
return untouched when the new size equals `surface_resolution`, otherwise
set only the `swapchain_rebuild` flag. -/
def VkBackend.handle_resize (s : VkState) (width height : Nat) : VkState :=
  if width = s.surfaceW ∧ height = s.surfaceH then s
  else { s with swapchainRebuild := true }

/-- Driver-supplied inputs consumed by one `begin_frame` call: the surface
capabilities seen if a rebuild runs, whether a rebuild sub-call fails, and
the result of `acquire_next_image` (image index, suboptimal flag). -/
structure FrameEnv where
  caps : SurfaceCaps
  rebuildFail : Option VkErr
  acquire : VkRes (Nat × Bool)

/-- `Backend::begin_frame` for `VkBackend` (lib.rs lines 487-567).  If
`swapchain_rebuild` is set: `device_wait_idle().unwrap()` (modelled as
succeeding), then `let _ = self.create_swapchain(self.surface_resolution.width,
self.surface_resolution.height)` — the error is discarded — then the flag is
unconditionally cleared.  Then the in-flight fence is waited/reset
(`expect`, modelled as succeeding), `acquire_next_image` is `.unwrap()`ed —
an `Err` is a panic, the suboptimal flag of an `Ok` is ignored — the
returned index becomes `current_img`, the command buffer is reset and
recording begins (render pass, viewport/scissor, push constants: opaque),
and finally `instance_cursor` is reset to 0. -/
def VkBackend.begin_frame (env : FrameEnv) (s : VkState) : Outcome VkState :=
  let s1 :=
    if s.swapchainRebuild then
      match VkBackend.create_swapchain env.caps env.rebuildFail s.surfaceW s.surfaceH s with
      | .ok t => { t with swapchainRebuild := false }
      | .err _ => { s with swapchainRebuild := false }
    else s
  match env.acquire with
  | .err _ => .panicked "called Result::unwrap() on acquire_next_image Err"
  | .ok (imgIndex, _suboptimal) =>
    .ok { s1 with currentImg := imgIndex, instanceCursor := 0 }

/-- `Backend::end_frame` for `VkBackend` (lib.rs lines 569-605): end the
render pass and command buffer, `queue_submit(...).unwrap()` (modelled as
succeeding), then `queue_present(...).unwrap()` — an `Err` from present is a
panic, a suboptimal `Ok(true)` is ignored — and advance
`frame_idx = (frame_idx + 1) % MAX_FRAMES_IN_FLIGHT`. -/
def VkBackend.end_frame (present : VkRes Bool) (s : VkState) : Outcome VkState :=
  match present with
  | .err _ => .panicked "called Result::unwrap() on queue_present Err"
  | .ok _suboptimal =>
    .ok { s with frameIdx := (s.frameIdx + 1) % MAX_FRAMES_IN_FLIGHT }

/-- `Backend::draw_sprites(batch)` for `VkBackend` (lib.rs lines 607-653):
return early on an empty batch; `assert!(batch.instances.len() <= MAX_SPRITES)`;
map the instance buffer at `instance_cursor` and copy the instances in
(modelled as succeeding — the code performs no capacity check before the
map); index `descriptor_sets[batch.tex.0 as usize]` (out of bounds is a
panic); bind and draw; advance `instance_cursor` by the bytes written.
`texIdx` is `batch.tex.0`, `batchLen` is `batch.instances.len()`. -/
def VkBackend.draw_sprites (s : VkState) (texIdx batchLen : Nat) : Outcome VkState :=
  if batchLen = 0 then .ok s
  else if ¬ batchLen ≤ MAX_SPRITES then
    .panicked "assertion failed: batch.instances.len() <= MAX_SPRITES"
  else if ¬ texIdx < s.descriptorSets then
    .panicked "index out of bounds: descriptor_sets"
  else
    .ok { s with instanceCursor := s.instanceCursor + batchLen * spriteInstanceBytes }

/-- A sequence of `draw_sprites` calls within one frame, each given as
`(texIdx, batchLen)`; stops at the first panic. -/
def VkBackend.run_draws (s : VkState) : List (Nat × Nat) → Outcome VkState
  | [] => .ok s
  | (texIdx, len) :: rest =>
    match VkBackend.draw_sprites s texIdx len with
    | .ok s' => VkBackend.run_draws s' rest
    | .panicked msg => .panicked msg

/-- Outcome of `VkBackend::create_texture`: a returned `TextureId`, a
propagated `vk::Result` error, or a panic from a contract check. -/
inductive TexOutcome where
  | ok (s : VkState) (id : Nat)
  | err (code : VkErr)
  | panicked (msg : String)
deriving DecidableEq

/-- `Backend::create_texture(width, height, pixels)` for `VkBackend`
(lib.rs lines 244-485).  First
`assert_eq!(pixels.len(), (width * height * 4) as usize)` — the product is
computed in `u32` arithmetic, hence taken modulo 2^32 here (release-profile
wrapping; under a debug profile the overflow itself panics, which deviates
from the claim at the same inputs) — then
`if self.images.len() >= MAX_TEXTURES { panic!(...) }`.  After the checks,
staging buffer, image, upload and descriptor creation follow; `fail`
abstracts any `?`-propagated driver failure among them, which returns before
any array is touched.  On success each of the five parallel arrays is pushed
once and the returned id is `descriptor_sets.len() - 1` after the push,
i.e. the old `descriptor_sets` length. -/
def VkBackend.create_texture (fail : Option VkErr) (s : VkState)
    (width height pixelsLen : Nat) : TexOutcome :=
  if pixelsLen ≠ width * height * 4 % u32Mod then
    .panicked "pixels buffer must be RGBA-8 per texel"
  else if MAX_TEXTURES ≤ s.images then
    .panicked "texture limit reached (256)"
  else
    match fail with
    | some e => .err e
    | none =>
      .ok { s with
            images := s.images + 1
            imageMem := s.imageMem + 1
            imageViews := s.imageViews + 1
            samplers := s.samplers + 1
            descriptorSets := s.descriptorSets + 1 }
        s.descriptorSets

/-- A sequence of successful `create_texture` calls, each given as
`(width, height, pixelsLen)` with no driver failure; `none` if any call
panics or errors, otherwise the final state and the list of returned ids. -/
def VkBackend.run_creates (s : VkState) :
    List (Nat × Nat × Nat) → Option (VkState × List Nat)
  | [] => some (s, [])
  | (w, h, len) :: rest =>
    match VkBackend.create_texture none s w h len with
    | .ok s' id =>
      match VkBackend.run_creates s' rest with
      | some (t, ids) => some (t, id :: ids)
      | none => none
    | _ => none

/-- Whether a `TexOutcome` is a contract-check panic. -/
def TexOutcome.isPanicked : TexOutcome → Bool
  | .panicked _ => true
  | _ => false

/-- Texture metadata stored by the renderer
(`jester_core/src/render.rs`, `TextureMeta`). -/
structure TextureMeta where
  w : Nat
  h : Nat
deriving DecidableEq

/-- Lookup in the renderer's `HashMap<TextureId, usize>`, modelled as an
association list with at most one entry per key. -/
def lutGet : List (Nat × Nat) → Nat → Option Nat
  | [], _ => none
  | (k, v) :: rest, key => if k = key then some v else lutGet rest key

/-- Insertion into the renderer's `HashMap<TextureId, usize>`: replace the
entry for the key when present, otherwise add one. -/
def lutInsert : List (Nat × Nat) → Nat → Nat → List (Nat × Nat)
  | [], key, val => [(key, val)]
  | (k, v) :: rest, key, val =>
    if k = key then (key, val) :: rest else (k, v) :: lutInsert rest key val

/-- Observable state of `Renderer<B>` (`jester_core/src/render.rs`): the
`lut: HashMap<TextureId, usize>` (keys are the `u64` inside `TextureId`)
and `metadata: Vec<Option<TextureMeta>>`.  The backend itself is opaque. -/
structure Renderer where
  lut : List (Nat × Nat)
  metadata : List (Option TextureMeta)
deriving DecidableEq

/-- `Renderer::new`: empty `metadata`, empty `lut` (render.rs lines 28-36). -/
def Renderer.new : Renderer := { lut := [], metadata := [] }

/-- `Renderer::draw_sprites(batch)` (render.rs lines 50-55): look `batch.tex`
up in the lut; on a miss return immediately, on a hit call
`backend.draw_sprites(idx, batch)`.  The second component reports the index
passed to the backend — `none` means the backend was not invoked.  The
renderer state is returned unchanged in both cases (the method mutates only
the backend). -/
def Renderer.draw_sprites (r : Renderer) (tex : Nat) : Renderer × Option Nat :=
  match lutGet r.lut tex with
  | none => (r, none)
  | some idx => (r, some idx)

/-- `Renderer::load_texture_sync(tex_id, path)` (render.rs lines 68-86),
success path: the decoded image's dimensions `(w, h)` and the slot index
returned by `backend.create_texture` are inputs (image decoding and the
backend are external).  Inserts `tex_id -> slot` into the lut, resizes
`metadata` with `None` up to `slot + 1` when needed, and stores
`Some(TextureMeta)` at `slot`. -/
def Renderer.load_texture_sync (r : Renderer) (texId slot w h : Nat) : Renderer :=
  let md :=
    if r.metadata.length ≤ slot then
      r.metadata ++ List.replicate (slot + 1 - r.metadata.length) none
    else r.metadata
  { lut := lutInsert r.lut texId slot
    metadata := md.set slot (some { w := w, h := h }) }

/-- A sequence of successful `load_texture_sync` calls, each given as
`(texId, slot, w, h)`. -/
def Renderer.run_loads (r : Renderer) : List (Nat × Nat × Nat × Nat) → Renderer
  | [] => r
  | (texId, slot, w, h) :: rest =>
    Renderer.run_loads (Renderer.load_texture_sync r texId slot w h) rest

/-- A 2D vector over exact arithmetic (ℚ), standing in for `glam::Vec2` in
`Camera`'s screen mapping; claim C10 is stated over exact arithmetic. -/
structure Vec2Q where
  x : ℚ
  y : ℚ
deriving DecidableEq

/-- `Camera` (`jester_core/src/lib.rs` lines 14-18): a center and a zoom. -/
structure Camera where
  center : Vec2Q
  zoom : ℚ
deriving DecidableEq

/-- `Camera::world_to_screen(world, screen)` (lib.rs lines 31-33):
`(world - self.center) * self.zoom + screen * 0.5`, componentwise; the f32
literal `0.5` is exactly 1/2. -/
def Camera.world_to_screen (c : Camera) (world screen : Vec2Q) : Vec2Q :=
  { x := (world.x - c.center.x) * c.zoom + screen.x * (1 / 2)
    y := (world.y - c.center.y) * c.zoom + screen.y * (1 / 2) }

/-- `Camera::screen_to_world(screen_pt, screen)` (lib.rs lines 34-36):
`(screen_pt - screen * 0.5) / self.zoom + self.center`, componentwise. -/
def Camera.screen_to_world (c : Camera) (screenPt screen : Vec2Q) : Vec2Q :=
  { x := (screenPt.x - screen.x * (1 / 2)) / c.zoom + c.center.x
    y := (screenPt.y - screen.y * (1 / 2)) / c.zoom + c.center.y }

/-- Modelled from the spec: "Desired image count = `min_image_count + 1`,
clamped to `max_image_count` if the surface caps it (0 means uncapped)"
(§4.2).  Stated for comparison with the two code-side computations. -/
def specDesiredImageCount (caps : SurfaceCaps) : Nat :=
  if caps.maxImageCount = 0 then caps.minImageCount + 1
  else Nat.min (caps.minImageCount + 1) caps.maxImageCount

/-- Helper: any `begin_frame` that returns normally leaves the
`swapchain_rebuild` flag clear, whatever it was on entry. -/
theorem beginFrame_flag_clear (env : FrameEnv) (s s' : VkState)
    (h : VkBackend.begin_frame env s = Outcome.ok s') :
    s'.swapchainRebuild = false := by
  unfold VkBackend.begin_frame at h
  cases hacq : env.acquire with
  | err e => rw [hacq] at h; exact absurd h (by simp)
  | ok p =>
    obtain ⟨i, b⟩ := p
    rw [hacq] at h
    simp at h
    by_cases hr : s.swapchainRebuild <;>
      cases hfail : env.rebuildFail <;>
        simp [hr, hfail, VkBackend.create_swapchain] at h <;> simp [← h]

/-- An 800x600 backend state with no pending rebuild and no textures, as
after `init` against an 800x600 surface. -/
def s800 : VkState :=
  { surfaceW := 800, surfaceH := 600, swapchainRebuild := false, frameIdx := 0,
    currentImg := 0, instanceCursor := 0, images := 0, imageMem := 0,
    imageViews := 0, samplers := 0, descriptorSets := 0 }

/-- C1: for every surface-capability report, the image count requested when
creating or rebuilding the swapchain equals `min_image_count + 1` clamped to
`max_image_count` when non-zero (0 = uncapped), never exceeding a non-zero
`max_image_count`.  The `init` path implements exactly this clamp, but the
`create_swapchain` path computes
`(min + 1).min(max.max(min + 1))`, which always equals `min + 1` — its clamp
is vacuous — so with `min_image_count = 3, max_image_count = 3` the rebuild
path requests 4 images, exceeding the non-zero cap of 3. -/
theorem C1_swapchain_image_count_unclamped :
    (∀ caps : SurfaceCaps,
      VkBackend.desired_image_count_init caps = specDesiredImageCount caps) ∧
    (∀ caps : SurfaceCaps,
      VkBackend.desired_image_count_rebuild caps = caps.minImageCount + 1) ∧
    VkBackend.desired_image_count_rebuild ⟨3, 3, 800, 600⟩ = 4 ∧
    specDesiredImageCount ⟨3, 3, 800, 600⟩ = 3 := by
  refine ⟨?_, ?_, by decide, by decide⟩
  · intro caps
    simp only [VkBackend.desired_image_count_init, specDesiredImageCount,
      Nat.min_def]
    split_ifs <;> omega
  · intro caps
    simp only [VkBackend.desired_image_count_rebuild, Nat.min_def, Nat.max_def]
    split_ifs <;> omega

/-- C3 (amended): an error returned by `acquire_next_image` in `begin_frame`
or by `queue_present` in `end_frame` is fatal — both results are
`.unwrap()`ed, so the backend panics at the failing call and the
pending-rebuild flag is never set; a suboptimal acquire (`Ok(_, true)`) is
ignored and the frame proceeds with the rebuild flag left clear. -/
theorem C3_acquire_present_errors_fatal (env : FrameEnv) (s : VkState)
    (e : VkErr) (i : Nat) :
    (env.acquire = VkRes.err e →
      VkBackend.begin_frame env s =
        Outcome.panicked "called Result::unwrap() on acquire_next_image Err") ∧
    (VkBackend.end_frame (VkRes.err e) s =
      Outcome.panicked "called Result::unwrap() on queue_present Err") ∧
    (∀ s', env.acquire = VkRes.ok (i, true) →
      VkBackend.begin_frame env s = Outcome.ok s' →
      s'.swapchainRebuild = false) := by
  refine ⟨?_, by simp [VkBackend.end_frame], ?_⟩
  · intro hacq
    unfold VkBackend.begin_frame
    rw [hacq]
  · intro s' _ hbf
    exact beginFrame_flag_clear env s s' hbf

/-- C3 witness: concrete instantiation of the amended claim — an
out-of-date error on acquire panics, an out-of-date error on present panics,
and a suboptimal acquire leaves the rebuild flag clear. -/
theorem C3_acquire_present_errors_fatal_witness :
    (VkBackend.begin_frame
        { caps := ⟨2, 3, 800, 600⟩, rebuildFail := none,
          acquire := VkRes.err VkErr.outOfDateKhr } s800 =
      Outcome.panicked "called Result::unwrap() on acquire_next_image Err") ∧
    (VkBackend.end_frame (VkRes.err VkErr.outOfDateKhr) s800 =
      Outcome.panicked "called Result::unwrap() on queue_present Err") ∧
    ({ s800 with swapchainRebuild := false } : VkState).swapchainRebuild = false :=
  ⟨(C3_acquire_present_errors_fatal
      { caps := ⟨2, 3, 800, 600⟩, rebuildFail := none,
        acquire := VkRes.err VkErr.outOfDateKhr } s800 VkErr.outOfDateKhr 0).1 rfl,
   (C3_acquire_present_errors_fatal
      { caps := ⟨2, 3, 800, 600⟩, rebuildFail := none,
        acquire := VkRes.err VkErr.outOfDateKhr } s800 VkErr.outOfDateKhr 0).2.1,
   (C3_acquire_present_errors_fatal
      { caps := ⟨2, 3, 800, 600⟩, rebuildFail := none,
        acquire := VkRes.ok (0, true) } s800 VkErr.outOfDateKhr 0).2.2
     { s800 with swapchainRebuild := false } rfl rfl⟩

/-- C3 counterexample: the claim says an out-of-date error at acquire is
never fatal; on the code, an `Err` from `acquire_next_image` makes
`begin_frame` panic through `.unwrap()`. -/
theorem C3_acquire_error_panics_counterexample :
    VkBackend.begin_frame
        { caps := ⟨2, 3, 800, 600⟩, rebuildFail := none,
          acquire := VkRes.err VkErr.outOfDateKhr } s800 =
      Outcome.panicked "called Result::unwrap() on acquire_next_image Err" := by
  rfl

/-- C5 (amended): when the swapchain rebuild inside `begin_frame` fails,
`begin_frame` does not panic — the error is discarded by `let _ = ...` —
but the pending-rebuild flag is cleared unconditionally, so the failed
rebuild is NOT retried at the following `begin_frame`; it is silently
dropped until some later `handle_resize` sets the flag again. -/
theorem C5_failed_rebuild_not_fatal_flag_cleared (env : FrameEnv) (s : VkState)
    (e : VkErr) (i : Nat) (b : Bool)
    (h1 : s.swapchainRebuild = true) (h2 : env.rebuildFail = some e)
    (h3 : env.acquire = VkRes.ok (i, b)) :
    VkBackend.begin_frame env s =
      Outcome.ok { s with swapchainRebuild := false, currentImg := i,
                          instanceCursor := 0 } := by
  unfold VkBackend.begin_frame
  rw [h3]
  simp [h1, h2, VkBackend.create_swapchain]

/-- C5 witness: a concrete failed rebuild — the flag is consumed and the
frame continues with no panic. -/
theorem C5_failed_rebuild_not_fatal_flag_cleared_witness :
    VkBackend.begin_frame
        { caps := ⟨2, 3, 640, 480⟩, rebuildFail := some VkErr.other,
          acquire := VkRes.ok (1, false) }
        { s800 with swapchainRebuild := true } =
      Outcome.ok { s800 with swapchainRebuild := false, currentImg := 1,
                             instanceCursor := 0 } :=
  C5_failed_rebuild_not_fatal_flag_cleared
    { caps := ⟨2, 3, 640, 480⟩, rebuildFail := some VkErr.other,
      acquire := VkRes.ok (1, false) }
    { s800 with swapchainRebuild := true } VkErr.other 1 false rfl rfl rfl

/-- C5 counterexample: the claim says the pending rebuild is not silently
dropped on a failed rebuild, so that the following `begin_frame` retries it.
On the code, after a failed rebuild the flag is `false`, and the next
`begin_frame` performs no rebuild at all: although the surface now reports a
defined 640x480 extent, the swapchain extent stays 800x600. -/
theorem C5_failed_rebuild_flag_cleared_counterexample :
    VkBackend.begin_frame
        { caps := ⟨2, 3, 640, 480⟩, rebuildFail := some VkErr.other,
          acquire := VkRes.ok (0, false) }
        { s800 with swapchainRebuild := true } =
      Outcome.ok s800 ∧
    s800.swapchainRebuild = false ∧
    VkBackend.begin_frame
        { caps := ⟨2, 3, 640, 480⟩, rebuildFail := none,
          acquire := VkRes.ok (0, false) } s800 =
      Outcome.ok s800 ∧
    s800.surfaceW = 800 ∧ s800.surfaceH = 600 := by
  refine ⟨by decide, by decide, by decide, rfl, rfl⟩

/-- C4 (amended): after `handle_resize(w, h)` with a size different from the
current one, the next successful `begin_frame` rebuilds and the active
extent equals the surface-reported current extent when the surface defines
one; but when the surface reports the undefined-extent sentinel, the extent
equals the PREVIOUS surface resolution, not `(w, h)`: `handle_resize`
discards its arguments and `begin_frame` passes the stale
`surface_resolution` to `create_swapchain`. -/
theorem C4_resize_extent_after_rebuild (s : VkState) (w h : Nat)
    (env : FrameEnv) (i : Nat) (b : Bool) (s' : VkState)
    (hfail : env.rebuildFail = none) (hacq : env.acquire = VkRes.ok (i, b))
    (hne : ¬(w = s.surfaceW ∧ h = s.surfaceH))
    (hbf : VkBackend.begin_frame env (VkBackend.handle_resize s w h) =
      Outcome.ok s') :
    (env.caps.currentExtentW = u32Max →
      s'.surfaceW = s.surfaceW ∧ s'.surfaceH = s.surfaceH) ∧
    (env.caps.currentExtentW ≠ u32Max →
      s'.surfaceW = env.caps.currentExtentW ∧
      s'.surfaceH = env.caps.currentExtentH) := by
  rw [VkBackend.handle_resize, if_neg hne] at hbf
  unfold VkBackend.begin_frame at hbf
  rw [hacq] at hbf
  simp [hfail, VkBackend.create_swapchain, VkBackend.new_surface_resolution]
    at hbf
  constructor
  · intro hsent
    rw [if_pos hsent] at hbf
    simp [← hbf]
  · intro hsent
    rw [if_neg hsent] at hbf
    simp [← hbf]

/-- C4 witness: a defined-extent rebuild — after `handle_resize(1024, 768)`
on an 800x600 backend, a surface reporting a defined 1024x768 extent yields
that extent. -/
theorem C4_resize_extent_after_rebuild_witness :
    ¬(1024 = s800.surfaceW ∧ 768 = s800.surfaceH) ∧
    (({ caps := ⟨2, 3, 1024, 768⟩, rebuildFail := none,
        acquire := VkRes.ok (0, false) } : FrameEnv).caps.currentExtentW ≠ u32Max →
      ({ s800 with surfaceW := 1024, surfaceH := 768 } : VkState).surfaceW = 1024 ∧
      ({ s800 with surfaceW := 1024, surfaceH := 768 } : VkState).surfaceH = 768) :=
  ⟨by decide,
   (C4_resize_extent_after_rebuild s800 1024 768
      { caps := ⟨2, 3, 1024, 768⟩, rebuildFail := none,
        acquire := VkRes.ok (0, false) } 0 false
      { s800 with surfaceW := 1024, surfaceH := 768 }
      rfl rfl (by decide) (by decide)).2⟩

/-- C4 counterexample: the claim says that under the undefined-extent
sentinel the post-rebuild extent equals the `(w, h)` passed to
`handle_resize`; on the code, after `handle_resize(1024, 768)` on an 800x600
backend, a sentinel-reporting surface leaves the extent at 800x600. -/
theorem C4_sentinel_extent_counterexample :
    VkBackend.begin_frame
        { caps := ⟨2, 3, u32Max, u32Max⟩, rebuildFail := none,
          acquire := VkRes.ok (0, false) }
        (VkBackend.handle_resize s800 1024 768) =
      Outcome.ok s800 ∧
    s800.surfaceW = 800 ∧ ¬ s800.surfaceW = 1024 := by
  refine ⟨by decide, rfl, by decide⟩

/-- C8: `handle_resize` with the size already in effect changes no field of
the backend state (in particular the rebuild flag stays as it was); with a
different size it changes only the `swapchain_rebuild` flag; and the flag is
consumed by the next `begin_frame` that returns normally. -/
theorem C8_handle_resize_noop_or_flag (s : VkState) (w h : Nat) :
    (w = s.surfaceW ∧ h = s.surfaceH → VkBackend.handle_resize s w h = s) ∧
    (¬(w = s.surfaceW ∧ h = s.surfaceH) →
      VkBackend.handle_resize s w h = { s with swapchainRebuild := true }) ∧
    (∀ env s', VkBackend.begin_frame env (VkBackend.handle_resize s w h) =
        Outcome.ok s' → s'.swapchainRebuild = false) := by
  refine ⟨?_, ?_, ?_⟩
  · intro hw
    rw [VkBackend.handle_resize, if_pos hw]
  · intro hw
    rw [VkBackend.handle_resize, if_neg hw]
  · intro env s' hbf
    exact beginFrame_flag_clear env (VkBackend.handle_resize s w h) s' hbf

/-- C8 witness: on the 800x600 state, `handle_resize(800, 600)` is the
identity, and `handle_resize(1024, 768)` sets only the rebuild flag. -/
theorem C8_handle_resize_noop_or_flag_witness :
    VkBackend.handle_resize s800 800 600 = s800 ∧
    VkBackend.handle_resize s800 1024 768 =
      { s800 with swapchainRebuild := true } :=
  ⟨(C8_handle_resize_noop_or_flag s800 800 600).1 (by decide),
   (C8_handle_resize_noop_or_flag s800 1024 768).2.1 (by decide)⟩

/-- Helper: a frame's `draw_sprites` calls whose batches are each within
`MAX_SPRITES` and reference an existing descriptor set all succeed, and the
cursor advances by the total bytes written — with no check of the cumulative
total against the buffer capacity. -/
theorem run_draws_ok (batches : List (Nat × Nat)) (s : VkState)
    (h : ∀ p ∈ batches, p.2 ≤ MAX_SPRITES ∧ p.1 < s.descriptorSets) :
    VkBackend.run_draws s batches =
      Outcome.ok { s with instanceCursor :=
        s.instanceCursor + (batches.map Prod.snd).sum * spriteInstanceBytes } := by
  induction batches generalizing s with
  | nil => simp [VkBackend.run_draws]
  | cons p rest ih =>
    obtain ⟨t, l⟩ := p
    have hp := h (t, l) (List.mem_cons_self _ _)
    have hrest : ∀ q ∈ rest, q.2 ≤ MAX_SPRITES ∧ q.1 < s.descriptorSets :=
      fun q hq => h q (List.mem_cons_of_mem _ hq)
    have hl : l ≤ MAX_SPRITES := hp.1
    have ht : t < s.descriptorSets := hp.2
    by_cases hl0 : l = 0
    · subst hl0
      rw [VkBackend.run_draws]
      have hdraw : VkBackend.draw_sprites s t 0 = Outcome.ok s := by
        simp [VkBackend.draw_sprites]
      rw [hdraw]
      dsimp only
      rw [ih s hrest]
      simp
    · rw [VkBackend.run_draws]
      have hdraw : VkBackend.draw_sprites s t l =
          Outcome.ok { s with instanceCursor :=
            s.instanceCursor + l * spriteInstanceBytes } := by
        rw [VkBackend.draw_sprites, if_neg hl0, if_neg (by omega),
          if_neg (by omega)]
      rw [hdraw]
      dsimp only
      rw [ih _ (by simpa using hrest)]
      simp only [List.map_cons, List.sum_cons, Outcome.ok.injEq,
        VkState.mk.injEq, and_true, true_and]
      ring

/-- C2 (amended): the fatal capacity check in `draw_sprites` is per call,
not cumulative: a single call with more than `MAX_SPRITES` instances panics
via the `assert!`, while every call whose own batch is within `MAX_SPRITES`
(and references an existing texture) succeeds and advances the cursor by the
bytes written — so a frame totalling exactly `MAX_SPRITES` instances
succeeds, but a frame whose calls cumulatively pass `MAX_SPRITES` advances
the cursor past the instance buffer's capacity without any panic. -/
theorem C2_per_call_capacity_check (s : VkState) (batches : List (Nat × Nat))
    (texIdx len : Nat) :
    ((∀ p ∈ batches, p.2 ≤ MAX_SPRITES ∧ p.1 < s.descriptorSets) →
      VkBackend.run_draws s batches =
        Outcome.ok { s with instanceCursor :=
          s.instanceCursor + (batches.map Prod.snd).sum * spriteInstanceBytes }) ∧
    (MAX_SPRITES < len →
      VkBackend.draw_sprites s texIdx len =
        Outcome.panicked "assertion failed: batch.instances.len() <= MAX_SPRITES") := by
  constructor
  · exact run_draws_ok batches s
  · intro hlen
    rw [VkBackend.draw_sprites, if_neg (by omega), if_pos (by omega)]

/-- Backend state after `begin_frame` with one texture created: cursor at 0,
one entry in each texture array. -/
def sDrawC2 : VkState :=
  { surfaceW := 800, surfaceH := 600, swapchainRebuild := false, frameIdx := 0,
    currentImg := 0, instanceCursor := 0, images := 1, imageMem := 1,
    imageViews := 1, samplers := 1, descriptorSets := 1 }

/-- C2 witness: a frame of batches [4, 9996] totalling exactly `MAX_SPRITES`
succeeds with the cursor at full capacity, and a single 10001-instance call
panics. -/
theorem C2_per_call_capacity_check_witness :
    VkBackend.run_draws sDrawC2 [(0, 4), (0, 9996)] =
      Outcome.ok { sDrawC2 with instanceCursor := 320000 } ∧
    VkBackend.draw_sprites sDrawC2 0 10001 =
      Outcome.panicked "assertion failed: batch.instances.len() <= MAX_SPRITES" :=
  ⟨(C2_per_call_capacity_check sDrawC2 [(0, 4), (0, 9996)] 0 10001).1 (by decide),
   (C2_per_call_capacity_check sDrawC2 [(0, 4), (0, 9996)] 0 10001).2 (by decide)⟩

/-- C2 counterexample: the claim says any call bringing the frame's
cumulative instance total beyond `MAX_SPRITES` panics; on the code, after a
10000-instance batch a further 1-instance call passes the per-batch assert
and succeeds, advancing the cursor to 320032 bytes — past the instance
buffer's capacity of `MAX_SPRITES * 32 = 320000` bytes. -/
theorem C2_cumulative_overflow_counterexample :
    VkBackend.run_draws sDrawC2 [(0, 10000), (0, 1)] =
      Outcome.ok { sDrawC2 with instanceCursor := 320032 } ∧
    10000 = MAX_SPRITES ∧
    MAX_SPRITES * spriteInstanceBytes < 320032 := by
  refine ⟨by decide, rfl, by decide⟩

/-- Backend state with empty texture arrays, as right after `init`. -/
def texZeroState : VkState :=
  { surfaceW := 800, surfaceH := 600, swapchainRebuild := false, frameIdx := 0,
    currentImg := 0, instanceCursor := 0, images := 0, imageMem := 0,
    imageViews := 0, samplers := 0, descriptorSets := 0 }

/-- C6: starting from a backend whose five parallel texture arrays all have
length `n`, a sequence of valid `create_texture` calls (each pixel length
matching the code's `width*height*4` check, total count within
`MAX_TEXTURES`) succeeds, returns exactly the ids `n, n+1, n+2, ...` — each
id equal to the number of textures created before the call — and grows each
of the five arrays by one per call, keeping all five lengths equal and
indexed 1:1 by the returned ids.  From the post-`init` state (`n = 0`) the
ids are `0, 1, 2, ...`. -/
theorem C6_create_texture_ids_sequential (inputs : List (Nat × Nat × Nat))
    (s : VkState) (n : Nat)
    (h1 : s.images = n) (h2 : s.imageMem = n) (h3 : s.imageViews = n)
    (h4 : s.samplers = n) (h5 : s.descriptorSets = n)
    (hvalid : ∀ p ∈ inputs, p.2.2 = p.1 * p.2.1 * 4 % u32Mod)
    (hcap : n + inputs.length ≤ MAX_TEXTURES) :
    VkBackend.run_creates s inputs =
      some ({ s with
              images := n + inputs.length, imageMem := n + inputs.length,
              imageViews := n + inputs.length, samplers := n + inputs.length,
              descriptorSets := n + inputs.length },
            List.range' n inputs.length) := by
  induction inputs generalizing s n with
  | nil =>
    rw [VkBackend.run_creates]
    simp only [List.length_nil, Nat.add_zero, List.range'_zero, Option.some.injEq]
    cases s
    simp_all
  | cons p rest ih =>
    obtain ⟨w, hgt, len⟩ := p
    have hlen : len = w * hgt * 4 % u32Mod := hvalid (w, hgt, len) (List.mem_cons_self _ _)
    have hrest : ∀ q ∈ rest, q.2.2 = q.1 * q.2.1 * 4 % u32Mod :=
      fun q hq => hvalid q (List.mem_cons_of_mem _ hq)
    rw [VkBackend.run_creates]
    have hcreate : VkBackend.create_texture none s w hgt len =
        TexOutcome.ok { s with
          images := s.images + 1, imageMem := s.imageMem + 1,
          imageViews := s.imageViews + 1, samplers := s.samplers + 1,
          descriptorSets := s.descriptorSets + 1 } s.descriptorSets := by
      rw [VkBackend.create_texture, if_neg (by simpa using hlen),
        if_neg (by simp at hcap ⊢; omega)]
    rw [hcreate]
    dsimp only
    rw [ih { s with
          images := s.images + 1, imageMem := s.imageMem + 1,
          imageViews := s.imageViews + 1, samplers := s.samplers + 1,
          descriptorSets := s.descriptorSets + 1 } (n + 1)
      (by simp [h1]) (by simp [h2]) (by simp [h3]) (by simp [h4]) (by simp [h5])
      hrest (by simp at hcap ⊢; omega)]
    simp [List.range'_succ, h5, VkState.mk.injEq]
    omega

/-- C6 witness: two valid calls from the post-`init` state return ids 0 and
1 and leave all five arrays at length 2. -/
theorem C6_create_texture_ids_sequential_witness :
    VkBackend.run_creates texZeroState [(1, 1, 4), (2, 3, 24)] =
      some ({ texZeroState with
              images := 2, imageMem := 2, imageViews := 2, samplers := 2,
              descriptorSets := 2 }, [0, 1]) :=
  C6_create_texture_ids_sequential [(1, 1, 4), (2, 3, 24)] texZeroState 0
    rfl rfl rfl rfl rfl (by decide) (by decide)

/-- C7 (amended): `create_texture` panics whenever the pixel length differs
from `width*height*4` as the code computes it — in 32-bit wrapping
arithmetic — or the stored texture count has reached `MAX_TEXTURES`; and the
checks never fire on an input satisfying both preconditions whose
`width*height*4` fits in `u32`.  (For overflowing sizes the wrapping check
can fire on a mathematically valid input, see the counterexample.) -/
theorem C7_create_texture_contract_checks (fail : Option VkErr) (s : VkState)
    (w h len : Nat) :
    ((len ≠ w * h * 4 % u32Mod ∨ MAX_TEXTURES ≤ s.images) →
      (VkBackend.create_texture fail s w h len).isPanicked = true) ∧
    (len = w * h * 4 → w * h * 4 < u32Mod → s.images < MAX_TEXTURES →
      (VkBackend.create_texture fail s w h len).isPanicked = false) := by
  constructor
  · rintro (hlen | hcap)
    · rw [VkBackend.create_texture.eq_def, if_pos hlen]
      rfl
    · by_cases hlen : len ≠ w * h * 4 % u32Mod
      · rw [VkBackend.create_texture.eq_def, if_pos hlen]
        rfl
      · rw [VkBackend.create_texture.eq_def, if_neg hlen, if_pos hcap]
        rfl
  · intro hlen hfit hcap
    rw [VkBackend.create_texture.eq_def,
      if_neg (by rw [Nat.mod_eq_of_lt hfit]; omega), if_neg (by omega)]
    cases fail <;> rfl

/-- C7 witness: a mismatched pixel length (5 for a 1x1 texture) panics; a
matching one (4) does not. -/
theorem C7_create_texture_contract_checks_witness :
    (VkBackend.create_texture none texZeroState 1 1 5).isPanicked = true ∧
    (VkBackend.create_texture none texZeroState 1 1 4).isPanicked = false :=
  ⟨(C7_create_texture_contract_checks none texZeroState 1 1 5).1
     (Or.inl (by decide)),
   (C7_create_texture_contract_checks none texZeroState 1 1 4).2
     (by decide) (by decide) (by decide)⟩

/-- C7 counterexample: the claim says the contract checks never fire on an
input satisfying both preconditions.  With `width = height = 65536` and
`pixels.len() = 2^34 = width*height*4`, both preconditions hold (the length
matches exactly and the texture count 0 is below `MAX_TEXTURES`), yet the
length assert fires: the code computes `width * height * 4` in `u32`, which
wraps to 0. -/
theorem C7_overflow_length_check_counterexample :
    VkBackend.create_texture none texZeroState 65536 65536 17179869184 =
      TexOutcome.panicked "pixels buffer must be RGBA-8 per texel" ∧
    17179869184 = 65536 * 65536 * 4 ∧
    texZeroState.images < MAX_TEXTURES := by
  refine ⟨by decide, by decide, by decide⟩

/-- Helper: inserting one key into the lut does not affect lookups of a
different key. -/
theorem lutGet_lutInsert_ne (lut : List (Nat × Nat)) (k v key : Nat)
    (h : k ≠ key) : lutGet (lutInsert lut k v) key = lutGet lut key := by
  induction lut with
  | nil => simp [lutInsert, lutGet, h]
  | cons p rest ih =>
    obtain ⟨k', v'⟩ := p
    by_cases hk : k' = k
    · subst hk
      rw [lutInsert, if_pos rfl, lutGet, lutGet, if_neg h, if_neg h]
    · rw [lutInsert, if_neg hk, lutGet, lutGet]
      by_cases hkey : k' = key
      · rw [if_pos hkey, if_pos hkey]
      · rw [if_neg hkey, if_neg hkey, ih]

/-- Helper: a texture id never passed to `load_texture_sync` stays absent
from the lut. -/
theorem runLoads_lutGet_none (loads : List (Nat × Nat × Nat × Nat))
    (r : Renderer) (tex : Nat) (h0 : lutGet r.lut tex = none)
    (h : ∀ l ∈ loads, l.1 ≠ tex) :
    lutGet (Renderer.run_loads r loads).lut tex = none := by
  induction loads generalizing r with
  | nil => exact h0
  | cons l rest ih =>
    obtain ⟨texId, slot, w, hgt⟩ := l
    have hne : texId ≠ tex := h (texId, slot, w, hgt) (List.mem_cons_self _ _)
    rw [Renderer.run_loads]
    exact ih _
      (by rw [Renderer.load_texture_sync]; exact
        (lutGet_lutInsert_ne r.lut texId slot tex hne).trans h0)
      (fun q hq => h q (List.mem_cons_of_mem _ hq))

/-- C9: calling `Renderer::draw_sprites` with a `TextureId` never registered
by a prior `load_texture_sync` is a silent no-op: the lut lookup misses, the
backend draw is not invoked (second component `none`), the renderer state is
returned unchanged, and no error or panic arises (the function is total). -/
theorem C9_unregistered_texture_noop (loads : List (Nat × Nat × Nat × Nat))
    (tex : Nat) (h : ∀ l ∈ loads, l.1 ≠ tex) :
    Renderer.draw_sprites (Renderer.run_loads Renderer.new loads) tex =
      (Renderer.run_loads Renderer.new loads, none) := by
  have hnone := runLoads_lutGet_none loads Renderer.new tex rfl h
  rw [Renderer.draw_sprites, hnone]

/-- C9 witness: after loading texture id 5 into slot 0, drawing with the
unregistered id 7 is a no-op. -/
theorem C9_unregistered_texture_noop_witness :
    Renderer.draw_sprites
        (Renderer.run_loads Renderer.new [(5, 0, 16, 16)]) 7 =
      (Renderer.run_loads Renderer.new [(5, 0, 16, 16)], none) :=
  C9_unregistered_texture_noop [(5, 0, 16, 16)] 7 (by decide)

/-- C10: over exact arithmetic, for every camera with non-zero zoom, every
screen size and every point, `Camera::screen_to_world` inverts
`Camera::world_to_screen`. -/
theorem C10_screen_world_inverse (c : Camera) (p scr : Vec2Q)
    (h : c.zoom ≠ 0) :
    Camera.screen_to_world c (Camera.world_to_screen c p scr) scr = p := by
  obtain ⟨px, py⟩ := p
  rw [Camera.world_to_screen, Camera.screen_to_world]
  simp only [Vec2Q.mk.injEq]
  constructor <;> field_simp

/-- C10 witness: a concrete round trip with zoom 2, center (1, 2), point
(3, 5) and screen 800x600. -/
theorem C10_screen_world_inverse_witness :
    Camera.screen_to_world ⟨⟨1, 2⟩, 2⟩
        (Camera.world_to_screen ⟨⟨1, 2⟩, 2⟩ ⟨3, 5⟩ ⟨800, 600⟩) ⟨800, 600⟩ =
      ⟨3, 5⟩ :=
  C10_screen_world_inverse ⟨⟨1, 2⟩, 2⟩ ⟨3, 5⟩ ⟨800, 600⟩ (by norm_num)
